import Mathlib

/-!
Shallow embedding of `src/rastervision/data/raster_source/rasterized_source.py`:
the windowed vector-to-raster conversion engine (`geojson_to_raster`) and its
orchestrating class (`RasterizedSource`).

Conventions of the embedding:
* Pixel coordinates are rationals (`ℚ`); the repository's `Box` allows
  fractional or integer coordinates.
* The external geometry library (shapely) is modelled by the inductive `Geom`,
  carrying exactly the structure the module inspects: geometry kind
  (Point / LineString / MultiLineString / Polygon), coordinates with an
  optional third (z) component, emptiness, intersection with an axis-aligned
  rectangle, buffering, and coordinate transforms.  Polygons are restricted
  to axis-aligned boxes: the only polygons the module itself constructs are
  the window and extent rectangles.
* The external array library (numpy / rasterio) is modelled by `NpArray2`:
  a shape, a dtype tag, and a total data function; slice assignment follows
  numpy basic-slicing semantics (negative-index wrap, clipping to the axis
  length).
-/

/-- Modelled from the spec: `rastervision.core.Box` is code of this repository
that is not under `src/`.  Per the spec (§3) a Box is
`{xmin, ymin, xmax, ymax}` in pixel coordinates (fractional or integer);
the field order `(ymin, xmin, ymax, xmax)` matches the constructor order used
by the repository. -/
structure Box where
  ymin : ℚ
  xmin : ℚ
  ymax : ℚ
  xmax : ℚ
deriving DecidableEq

/-- Modelled from the spec: derived height `ymax - ymin` of a `Box`. -/
def Box.get_height (b : Box) : ℚ := b.ymax - b.ymin

/-- Modelled from the spec: derived width `xmax - xmin` of a `Box`. -/
def Box.get_width (b : Box) : ℚ := b.xmax - b.xmin

/-- Modelled from the spec: `Box.to_int` truncates a box to integer pixel
bounds with floor semantics on both min and max edges.  The integer-valued
result is represented with `ℤ` fields. -/
structure IntBox where
  ymin : ℤ
  xmin : ℤ
  ymax : ℤ
  xmax : ℤ
deriving DecidableEq

def Box.to_int (b : Box) : IntBox :=
  { ymin := ⌊b.ymin⌋, xmin := ⌊b.xmin⌋, ymax := ⌊b.ymax⌋, xmax := ⌊b.xmax⌋ }

/-- A 2-D point with the optional third (z) coordinate shapely carries along. -/
structure Pt where
  x : ℚ
  y : ℚ
  z : Option ℚ
deriving DecidableEq

/-- The x/y footprint of a coordinate list (the part every 2-D operation of
the geometry library reads). -/
def ptsXY (pts : List Pt) : List (ℚ × ℚ) := pts.map (fun p => (p.x, p.y))

def xyToPt (xy : ℚ × ℚ) : Pt := ⟨xy.1, xy.2, none⟩

/-- Model of the shapely geometry values manipulated by
`geojson_to_raster`.  `polygonBox b` is the polygon of an axis-aligned
rectangle; `buffered g d` is the polygonal result of `g.buffer(d)`,
represented symbolically. -/
inductive Geom where
  | empty : Geom
  | point : Pt → Geom
  | lineString : List Pt → Geom
  | multiLineString : List (List Pt) → Geom
  | polygonBox : Box → Geom
  | buffered : Geom → ℚ → Geom
deriving DecidableEq

/-- Model of shapely `geom.is_empty`. -/
def Geom.is_empty : Geom → Bool
  | .empty => true
  | .point _ => false
  | .lineString pts => decide (pts.length < 2)
  | .multiLineString parts => parts.all (fun c => decide (c.length < 2))
  | .polygonBox _ => false
  | .buffered _ _ => false

/-- Model of the exact type test `type(s) is shapely.geometry.LineString`
performed by the source: true only for a single-part line. -/
def Geom.isLineString : Geom → Bool
  | .lineString _ => true
  | _ => false

/-- Model of shapely `geom.buffer(d)`: a polygonal result, kept symbolic. -/
def Geom.buffer (g : Geom) (d : ℚ) : Geom := Geom.buffered g d

/-- Liang-Barsky clipping of the segment `p -- q` to the closed rectangle
`b`; returns the clipped endpoints, or `none` if the segment misses the
rectangle. -/
def clipSeg (b : Box) (p q : ℚ × ℚ) : Option ((ℚ × ℚ) × (ℚ × ℚ)) :=
  let dx := q.1 - p.1
  let dy := q.2 - p.2
  let step := fun (acc : Option (ℚ × ℚ)) (pq : ℚ × ℚ) =>
    match acc with
    | none => none
    | some (t0, t1) =>
      if pq.1 = 0 then (if pq.2 < 0 then none else some (t0, t1))
      else
        let r := pq.2 / pq.1
        if pq.1 < 0 then some (max t0 r, t1) else some (t0, min t1 r)
  match [(-dx, p.1 - b.xmin), (dx, b.xmax - p.1),
         (-dy, p.2 - b.ymin), (dy, b.ymax - p.2)].foldl step (some (0, 1)) with
  | none => none
  | some (t0, t1) =>
    if t0 ≤ t1 then
      some ((p.1 + t0 * dx, p.2 + t0 * dy), (p.1 + t1 * dx, p.2 + t1 * dy))
    else none

def flushChain (chains : List (List (ℚ × ℚ))) (cur : List (ℚ × ℚ)) :
    List (List (ℚ × ℚ)) :=
  if cur.isEmpty then chains else chains ++ [cur]

/-- One step of clipping a polyline to a rectangle: clip the next segment and
either extend the current chain (contiguous piece), start a new chain, or
flush (segment outside, or degenerate single-point touch, which is dropped). -/
def segClipFold (b : Box) (acc : List (List (ℚ × ℚ)) × List (ℚ × ℚ))
    (seg : Pt × Pt) : List (List (ℚ × ℚ)) × List (ℚ × ℚ) :=
  match clipSeg b (seg.1.x, seg.1.y) (seg.2.x, seg.2.y) with
  | none => (flushChain acc.1 acc.2, [])
  | some (a, c) =>
    if a = c then (flushChain acc.1 acc.2, [])
    else if acc.2.getLast? = some a then (acc.1, acc.2 ++ [c])
    else (flushChain (flushChain acc.1 acc.2) [], [a, c])

/-- Clip a polyline (given by its x/y coordinates) to a rectangle, producing
the maximal contiguous pieces that lie inside it. -/
def clipChains (b : Box) (xs : List (ℚ × ℚ)) : List (List (ℚ × ℚ)) :=
  let segs := (xs.map xyToPt).zip ((xs.map xyToPt).tail)
  let acc := segs.foldl (segClipFold b) ([], [])
  flushChain acc.1 acc.2

/-- Package clipped chains the way shapely types its intersection results:
no piece is `empty`, one piece is a `LineString`, several pieces are a
`MultiLineString`. -/
def chainsToGeom : List (List (ℚ × ℚ)) → Geom
  | [] => .empty
  | [c] => .lineString (c.map xyToPt)
  | cs => .multiLineString (cs.map (fun c => c.map xyToPt))

/-- Model of shapely intersection of a geometry with the closed rectangle
`b` (the module only ever intersects against box polygons).  Intersecting two
rectangles follows GEOS: a degenerate overlap (zero width and/or height)
yields a lower-dimensional geometry, not an empty one. -/
def Geom.clipToBox : Geom → Box → Geom
  | .empty, _ => .empty
  | .point p, b =>
    if b.xmin ≤ p.x ∧ p.x ≤ b.xmax ∧ b.ymin ≤ p.y ∧ p.y ≤ b.ymax then .point p
    else .empty
  | .lineString pts, b => chainsToGeom (clipChains b (ptsXY pts))
  | .multiLineString parts, b =>
    chainsToGeom ((parts.map (fun c => clipChains b (ptsXY c))).flatten)
  | .polygonBox r, b =>
    let x0 := max r.xmin b.xmin
    let y0 := max r.ymin b.ymin
    let x1 := min r.xmax b.xmax
    let y1 := min r.ymax b.ymax
    if x0 ≤ x1 ∧ y0 ≤ y1 then
      if x0 = x1 ∧ y0 = y1 then .point ⟨x0, y0, none⟩
      else if x0 = x1 then .lineString [⟨x0, y0, none⟩, ⟨x0, y1, none⟩]
      else if y0 = y1 then .lineString [⟨x0, y0, none⟩, ⟨x1, y0, none⟩]
      else .polygonBox { ymin := y0, xmin := x0, ymax := y1, xmax := x1 }
    else .empty
  | .buffered g d, _ => .buffered g d

/-- Model of shapely `g.intersection(other)`.  The module only intersects
against box polygons (`window.to_shapely()` / `extent.to_shapely()`); other
right-hand sides do not occur. -/
def Geom.intersection (g : Geom) (other : Geom) : Geom :=
  match other with
  | .polygonBox b => g.clipToBox b
  | _ => .empty

/-- Modelled from the spec: `Box.to_shapely` converts the box to its polygon
representation. -/
def Box.to_shapely (b : Box) : Geom := Geom.polygonBox b

/-- Bounds of a coordinate list as a box. -/
def ptsBounds : List (ℚ × ℚ) → Option Box
  | [] => none
  | p :: ps =>
    some (ps.foldl
      (fun b q => { ymin := min b.ymin q.2, xmin := min b.xmin q.1,
                    ymax := max b.ymax q.2, xmax := max b.xmax q.1 })
      { ymin := p.2, xmin := p.1, ymax := p.2, xmax := p.1 })

def unionOptBox : Option Box → Option Box → Option Box
  | none, b => b
  | some a, none => some a
  | some a, some b =>
    some { ymin := min a.ymin b.ymin, xmin := min a.xmin b.xmin,
           ymax := max a.ymax b.ymax, xmax := max a.xmax b.xmax }

/-- Model of shapely `geom.bounds` (the geometry's axis-aligned extent);
`none` for an empty geometry.  The bounds of a buffered geometry expand by
the buffer radius. -/
def Geom.bounds : Geom → Option Box
  | .empty => none
  | .point p => some { ymin := p.y, xmin := p.x, ymax := p.y, xmax := p.x }
  | .lineString pts => ptsBounds (ptsXY pts)
  | .multiLineString parts =>
    (parts.map (fun c => ptsBounds (ptsXY c))).foldl unionOptBox none
  | .polygonBox b => some b
  | .buffered g d =>
    (Geom.bounds g).map (fun b =>
      { ymin := b.ymin - d, xmin := b.xmin - d,
        ymax := b.ymax + d, xmax := b.xmax + d })

/-- Model of shapely `shapely.ops.transform(f, g)`: apply `f` to every
coordinate tuple.  `f` receives the optional z coordinate and returns an
x/y pair, so the result is 2-D (z is dropped), exactly as in shapely when
`f` returns 2-tuples.  The module only passes translations, under which a
box polygon maps corner-wise to a box polygon and buffering commutes. -/
def Geom.transform (f : ℚ → ℚ → Option ℚ → ℚ × ℚ) : Geom → Geom
  | .empty => .empty
  | .point p => .point (xyToPt (f p.x p.y p.z))
  | .lineString pts => .lineString (pts.map (fun p => xyToPt (f p.x p.y p.z)))
  | .multiLineString parts =>
    .multiLineString (parts.map (fun c => c.map (fun p => xyToPt (f p.x p.y p.z))))
  | .polygonBox b =>
    let a := f b.xmin b.ymin none
    let c := f b.xmax b.ymax none
    .polygonBox { ymin := a.2, xmin := a.1, ymax := c.2, xmax := c.1 }
  | .buffered g d => .buffered (Geom.transform f g) d

/-- Modelled from the spec: `Box.from_shapely` builds a box from a geometry's
bounds.  The module only applies it to the non-empty `valid_window`; the
fallback value for an empty geometry is never reached. -/
def Box.from_shapely (g : Geom) : Box :=
  (Geom.bounds g).getD { ymin := 0, xmin := 0, ymax := 0, xmax := 0 }

/-! ## Model of the numpy / rasterio array interface -/

/-- The two array element types this module produces: `np.uint8` (requested
explicitly) and `np.float64` (numpy's default, e.g. for `np.zeros`). -/
inductive NpDtype where
  | uint8 : NpDtype
  | float64 : NpDtype
deriving DecidableEq

/-- Value stored when an integer is written into an array of the given
dtype: uint8 wraps modulo 2^8, float64 represents small integers exactly. -/
def castTo : NpDtype → ℤ → ℤ
  | .uint8, v => v % 256
  | .float64, v => v

/-- A dense 2-D numpy array: shape, element type, and a total data function
(entries outside the shape are irrelevant). -/
structure NpArray2 where
  h : Nat
  w : Nat
  dtype : NpDtype
  data : Nat → Nat → ℤ

/-- A dense 3-D numpy array (chips carry a trailing channel axis). -/
structure NpArray3 where
  h : Nat
  w : Nat
  c : Nat
  dtype : NpDtype
  data : Nat → Nat → Nat → ℤ

/-- Model of `np.expand_dims(a, 2)`: append a trailing singleton axis. -/
def expand_dims (a : NpArray2) (_axis : Nat) : NpArray3 :=
  { h := a.h, w := a.w, c := 1, dtype := a.dtype,
    data := fun i j _ => a.data i j }

/-- Model of `np.full(out_shape, v, dtype=dt)`. -/
def npFull (oshape : Nat × Nat) (v : ℤ) (dtype : NpDtype) : NpArray2 :=
  { h := oshape.1, w := oshape.2, dtype := dtype, data := fun _ _ => castTo dtype v }

/-- Model of `np.zeros(out_shape)` WITHOUT a dtype argument: numpy's default
element type is float64. -/
def npZeros (oshape : Nat × Nat) : NpArray2 :=
  { h := oshape.1, w := oshape.2, dtype := NpDtype.float64, data := fun _ _ => 0 }

/-- Model of the full-array assignment `a[:, :] = v`. -/
def NpArray2.setAll (a : NpArray2) (v : ℤ) : NpArray2 :=
  { a with data := fun _ _ => castTo a.dtype v }

/-- Resolve one bound of a numpy basic slice `a` on an axis of length `n`:
negative indices wrap by `n`, then the bound is clipped into `[0, n]`. -/
def resolveSlice (a : ℤ) (n : Nat) : Nat :=
  let a := if a < 0 then a + n else a
  min a.toNat n

/-- Model of the slice assignment
`dst[y0:y1, x0:x1] = src[y0:y1, x0:x1]` between same-shape arrays: inside the
resolved rectangle the destination takes the source value (cast to the
destination's dtype), outside it is unchanged. -/
def NpArray2.sliceAssignFrom (dst src : NpArray2) (y0 y1 x0 x1 : ℤ) : NpArray2 :=
  { dst with data := fun i j =>
      if resolveSlice y0 dst.h ≤ i ∧ i < resolveSlice y1 dst.h ∧
         resolveSlice x0 dst.w ≤ j ∧ j < resolveSlice x1 dst.w
      then castTo dst.dtype (src.data i j) else dst.data i j }

/-! Pixel coverage for the burn-in model of `rasterio.features.rasterize`.
No claim below depends on which exact pixels a shape covers; the coverage
predicate is a straightforward pixel-center model of the external library. -/

def dist2 (a b : ℚ × ℚ) : ℚ := (a.1 - b.1) ^ 2 + (a.2 - b.2) ^ 2

/-- Squared distance from `c` to the segment `p -- q`. -/
def segDist2 (p q c : ℚ × ℚ) : ℚ :=
  let dx := q.1 - p.1
  let dy := q.2 - p.2
  let len2 := dx * dx + dy * dy
  if len2 = 0 then dist2 p c
  else
    let t := max 0 (min 1 (((c.1 - p.1) * dx + (c.2 - p.2) * dy) / len2))
    dist2 (p.1 + t * dx, p.2 + t * dy) c

def segsOf (xs : List (ℚ × ℚ)) : List ((ℚ × ℚ) × (ℚ × ℚ)) := xs.zip xs.tail

/-- Is the point `c` within distance `d` of the geometry `g`?  (Used for the
coverage of buffered geometries; the `polygonBox` case expands the box,
which is exact away from corners.) -/
def withinDist : Geom → ℚ → ℚ × ℚ → Bool
  | .empty, _, _ => false
  | .point p, d, c => decide (dist2 (p.x, p.y) c ≤ d * d)
  | .lineString pts, d, c =>
    (segsOf (ptsXY pts)).any (fun s => decide (segDist2 s.1 s.2 c ≤ d * d))
  | .multiLineString parts, d, c =>
    parts.any (fun part =>
      (segsOf (ptsXY part)).any (fun s => decide (segDist2 s.1 s.2 c ≤ d * d)))
  | .polygonBox b, d, c =>
    decide (b.xmin - d ≤ c.1 ∧ c.1 ≤ b.xmax + d ∧ b.ymin - d ≤ c.2 ∧ c.2 ≤ b.ymax + d)
  | .buffered g e, d, c => withinDist g (d + e) c

/-- Does the segment `p -- q` touch the closed cell rectangle `b`? -/
def segTouches (b : Box) (p q : ℚ × ℚ) : Bool := (clipSeg b p q).isSome

/-- Coverage of the pixel cell centred at `c` (half-cell radius 1/2). -/
def coversPt : Geom → ℚ × ℚ → Bool
  | .empty, _ => false
  | .point p, c =>
    decide (c.1 - 1/2 ≤ p.x ∧ p.x ≤ c.1 + 1/2 ∧ c.2 - 1/2 ≤ p.y ∧ p.y ≤ c.2 + 1/2)
  | .lineString pts, c =>
    (segsOf (ptsXY pts)).any (fun s =>
      segTouches { ymin := c.2 - 1/2, xmin := c.1 - 1/2,
                   ymax := c.2 + 1/2, xmax := c.1 + 1/2 } s.1 s.2)
  | .multiLineString parts, c =>
    parts.any (fun part =>
      (segsOf (ptsXY part)).any (fun s =>
        segTouches { ymin := c.2 - 1/2, xmin := c.1 - 1/2,
                     ymax := c.2 + 1/2, xmax := c.1 + 1/2 } s.1 s.2))
  | .polygonBox b, c =>
    decide (b.xmin ≤ c.1 ∧ c.1 ≤ b.xmax ∧ b.ymin ≤ c.2 ∧ c.2 ≤ b.ymax)
  | .buffered g d, c => withinDist g d c

/-- Does shape `g` burn the pixel at row `i`, column `j`?  Pixel centres sit
at half-integer coordinates. -/
def Geom.covers (g : Geom) (i j : Nat) : Bool :=
  coversPt g ((j : ℚ) + 1/2, (i : ℚ) + 1/2)

/-- Model of `rasterio.features.rasterize(shapes, out_shape=..., fill=...,
dtype=...)` (external library): a grid of the requested shape and dtype,
background pixels filled with `fill`, each shape's pixels painted with its
class id in list order — a later shape overwrites earlier ones where they
overlap. -/
def rasterize (shapes : List (Geom × ℤ)) (oshape : Nat × Nat) (fill : ℤ)
    (dtype : NpDtype) : NpArray2 :=
  { h := oshape.1, w := oshape.2, dtype := dtype,
    data := fun i j =>
      shapes.foldl (fun v sc => if sc.1.covers i j then castTo dtype sc.2 else v)
        (castTo dtype fill) }

/-! ## The window rasterizer `geojson_to_raster` -/

/-- A stored geometry with the class id the source attaches to it
(`shape.class_id = class_id` in `_activate`); per the spec's design note the
label is carried as part of the record. -/
structure LGeom where
  geom : Geom
  class_id : ℤ
deriving DecidableEq

/-- Model of `shapely.strtree.STRtree`: a bulk-built, read-only index over
the stored geometries, queried by bounding-box intersection.  Query order is
the (deterministic) build order. -/
structure STRtree where
  geoms : List LGeom

def boxesIntersect (a b : Box) : Bool :=
  decide (a.xmin ≤ b.xmax ∧ b.xmin ≤ a.xmax ∧ a.ymin ≤ b.ymax ∧ b.ymin ≤ a.ymax)

/-- `str_tree.query(g)`: every stored geometry whose bounds intersect the
bounds of the query geometry (a candidate filter, not exact intersection). -/
def STRtree.query (t : STRtree) (g : Geom) : List LGeom :=
  match Geom.bounds g with
  | none => []
  | some qb =>
    t.geoms.filter (fun s =>
      match Geom.bounds s.geom with
      | none => false
      | some sb => boxesIntersect qb sb)

/-- `rastervision...RasterizerOptions`: `line_buffer` and
`background_class_id`, supplied once at construction. -/
structure RasterizerOptions where
  line_buffer : ℚ
  background_class_id : ℤ

/-- The CRS transformer is passed through `geojson_to_raster` unused. -/
def CRSTransformer : Type := Unit

/-- The local coordinate function defined inside `geojson_to_raster`:
`def to_window_frame(x, y, z=None): return (x - window.xmin, y - window.ymin)`.
It accepts an optional z coordinate and returns only the translated x/y. -/
def to_window_frame (window : Box) (x y : ℚ) (_z : Option ℚ) : ℚ × ℚ :=
  (x - window.xmin, y - window.ymin)

/-- `shapes = str_tree.query(window.to_shapely())` followed by
`shapes = [(s, s.class_id) for s in shapes]`. -/
def queryShapes (str_tree : STRtree) (window : Box) : List (Geom × ℤ) :=
  (str_tree.query window.to_shapely).map (fun s => (s.geom, s.class_id))

/-- `shapes = [(s.intersection(window.to_shapely()), c) for s, c in shapes]`
followed by `shapes = [(s, c) for s, c in shapes if not s.is_empty]`. -/
def clipShapes (shapes : List (Geom × ℤ)) (window : Box) : List (Geom × ℤ) :=
  (shapes.map (fun sc => (sc.1.intersection window.to_shapely, sc.2))).filter
    (fun sc => !sc.1.is_empty)

/-- `shapes = [(s.buffer(line_buffer), c) if type(s) is
shapely.geometry.LineString else (s, c) for s, c in shapes]`. -/
def bufferShapes (shapes : List (Geom × ℤ)) (line_buffer : ℚ) : List (Geom × ℤ) :=
  shapes.map (fun sc =>
    if sc.1.isLineString then (sc.1.buffer line_buffer, sc.2) else sc)

/-- `shapes = [(shapely.ops.transform(to_window_frame, s), c)
for s, c in shapes]`. -/
def reframeShapes (shapes : List (Geom × ℤ)) (window : Box) : List (Geom × ℤ) :=
  shapes.map (fun sc => (Geom.transform (to_window_frame window) sc.1, sc.2))

/-- The shape list reaching burn-in: query, clip (and drop empties), buffer
single-part lines, reframe — in that order. -/
def finalShapes (str_tree : STRtree) (line_buffer : ℚ) (window : Box) :
    List (Geom × ℤ) :=
  reframeShapes (bufferShapes (clipShapes (queryShapes str_tree window) window)
    line_buffer) window

/-- `out_shape = (window.get_height(), window.get_width())`.  numpy requires
integer dimensions; for a window whose height/width are (non-negative)
integers this is exactly them. -/
def out_shape (window : Box) : Nat × Nat :=
  ((⌊window.get_height⌋).toNat, (⌊window.get_width⌋).toNat)

/-- Steps 1-5 of the pipeline: the burned-in grid before extent masking.
`if shapes: raster = rasterize(..., fill=background_class_id,
dtype=np.uint8) else: raster = np.full(out_shape, background_class_id,
dtype=np.uint8)` (Python truthiness of a list is non-emptiness). -/
def burnedRaster (str_tree : STRtree) (rasterizer_options : RasterizerOptions)
    (window : Box) : NpArray2 :=
  let shapes := finalShapes str_tree rasterizer_options.line_buffer window
  if shapes.isEmpty then
    npFull (out_shape window) rasterizer_options.background_class_id NpDtype.uint8
  else
    rasterize shapes (out_shape window) rasterizer_options.background_class_id
      NpDtype.uint8

/-- `geojson_to_raster(str_tree, rasterizer_options, window, extent,
crs_transformer)`: burn in the clipped/buffered/reframed shapes, then mask
by the extent: if `window ∩ extent` is empty the whole grid is overwritten
with 0; otherwise a freshly zero-filled grid (`np.zeros(out_shape)`, dtype
float64 by numpy default) receives only the sub-rectangle of the burned grid
given by reframing and floor-truncating the valid region. -/
def geojson_to_raster (str_tree : STRtree) (rasterizer_options : RasterizerOptions)
    (window : Box) (extent : Box) (_crs_transformer : CRSTransformer) : NpArray2 :=
  let raster := burnedRaster str_tree rasterizer_options window
  let valid_window := (window.to_shapely).intersection (extent.to_shapely)
  if valid_window.is_empty then
    raster.setAll 0
  else
    let vw := (Box.from_shapely
      (Geom.transform (to_window_frame window) valid_window)).to_int
    let new_raster := npZeros (out_shape window)
    new_raster.sliceAssignFrom raster vw.ymin vw.ymax vw.xmin vw.xmax

/-! ## The orchestrator `RasterizedSource` -/

/-- Errors a call can raise: the explicit `ActivationError` of `_get_chip`,
and Python's `AttributeError` that dereferencing a missing `str_tree`
attribute would raise (shown unreachable in `c9_...` below). -/
inductive PyError where
  | activationError : String → PyError
  | attributeError : PyError
deriving DecidableEq

/-- State of a `RasterizedSource`.  `vector_source` is modelled as the list
of labeled shapes the external vector-data collaborator supplies
(`geojson_to_shapes(self.vector_source.get_geojson(), ...)` lives outside
`src/`; per the spec §6 the collaborator supplies `(geometry, class_id)`
pairs).  `str_tree := none` models both the initial absence of the attribute
and its release by `_deactivate`.  `channel_order`/`num_channels` record the
`super().__init__(channel_order=[0], num_channels=1)` call. -/
structure RasterizedSource where
  vector_source : List LGeom
  rasterizer_options : RasterizerOptions
  extent : Box
  crs_transformer : CRSTransformer
  activated : Bool
  str_tree : Option STRtree
  channel_order : List Nat
  num_channels : Nat

/-- `RasterizedSource.__init__`. -/
def RasterizedSource.init (vector_source : List LGeom)
    (rasterizer_options : RasterizerOptions) (extent : Box)
    (crs_transformer : CRSTransformer) : RasterizedSource :=
  { vector_source := vector_source, rasterizer_options := rasterizer_options,
    extent := extent, crs_transformer := crs_transformer, activated := false,
    str_tree := none, channel_order := [0], num_channels := 1 }

def RasterizedSource.get_extent (s : RasterizedSource) : Box := s.extent

/-- `get_dtype`: "Return the numpy.dtype of this scene" — `np.uint8`. -/
def RasterizedSource.get_dtype (_s : RasterizedSource) : NpDtype := NpDtype.uint8

/-- `_get_chip(self, window)`, in state-passing form: the method performs no
attribute assignment, so the state component of the result is the input
state.  Raises `ActivationError` when not activated; otherwise rasterizes
the window and appends the trailing singleton channel axis. -/
def RasterizedSource.get_chip_impl (s : RasterizedSource) (window : Box) :
    Except PyError NpArray3 × RasterizedSource :=
  if s.activated = false then
    (Except.error (PyError.activationError
      "GeoJSONSource must be activated before use"), s)
  else
    match s.str_tree with
    | none => (Except.error PyError.attributeError, s)
    | some t =>
      (Except.ok (expand_dims
        (geojson_to_raster t s.rasterizer_options window s.get_extent
          s.crs_transformer) 2), s)

/-- `_activate(self)`: build the STRtree over the supplied labeled shapes
and set the activated flag. -/
def RasterizedSource.activate_impl (s : RasterizedSource) : RasterizedSource :=
  { s with str_tree := some (STRtree.mk s.vector_source), activated := true }

/-- `_deactivate(self)`: drop the index and clear the activated flag. -/
def RasterizedSource.deactivate_impl (s : RasterizedSource) : RasterizedSource :=
  { s with str_tree := none, activated := false }

/-- The calls a client can make on a source. -/
inductive SourceOp where
  | activate : SourceOp
  | deactivate : SourceOp
  | getChip : Box → SourceOp

/-- State transition of one call (a `get_chip` call returns its state
component, which `get_chip_impl` leaves unchanged). -/
def SourceOp.step (s : RasterizedSource) : SourceOp → RasterizedSource
  | .activate => s.activate_impl
  | .deactivate => s.deactivate_impl
  | .getChip w => (s.get_chip_impl w).2

/-- States reachable from `s0` by some sequence of calls. -/
def ReachableFrom (s0 s : RasterizedSource) : Prop :=
  ∃ ops : List SourceOp, s = ops.foldl SourceOp.step s0

/-! ## Auxiliary notions used only to state properties -/

/-- The spec's notion "the clipped result is a line (not a polygon or
point)": a single-part or multi-part line. -/
def Geom.isLineKind : Geom → Bool
  | .lineString _ => true
  | .multiLineString _ => true
  | _ => false

/-- Erase the optional z coordinate of a point (keep the 2-D footprint). -/
def Pt.dropZ (p : Pt) : Pt := { p with z := none }

/-- Erase all z coordinates of a geometry: two geometries with the same
`dropZ` image differ only in z and have the same 2-D footprint. -/
def Geom.dropZ : Geom → Geom
  | .empty => .empty
  | .point p => .point p.dropZ
  | .lineString pts => .lineString (pts.map Pt.dropZ)
  | .multiLineString parts => .multiLineString (parts.map (fun c => c.map Pt.dropZ))
  | .polygonBox b => .polygonBox b
  | .buffered g d => .buffered g.dropZ d

def LGeom.dropZ (s : LGeom) : LGeom := { s with geom := s.geom.dropZ }

def pairDropZ (sc : Geom × ℤ) : Geom × ℤ := (sc.1.dropZ, sc.2)

/-! ## Concrete fixtures used by witnesses and counterexamples -/

/-- A V-shaped line that leaves and re-enters the window `winA`: clipping it
to `winA` yields a two-part MultiLineString. -/
def lineV : Geom := Geom.lineString [⟨2,2,none⟩, ⟨15,2,none⟩, ⟨15,8,none⟩, ⟨2,8,none⟩]

def winA : Box := { ymin := 0, xmin := 0, ymax := 10, xmax := 10 }

def extA : Box := { ymin := 0, xmin := 0, ymax := 100, xmax := 100 }

/-- A window fully outside `extA`. -/
def winFar : Box := { ymin := 200, xmin := 200, ymax := 203, xmax := 203 }

/-- A small window fully inside `extA`. -/
def winIn : Box := { ymin := 0, xmin := 0, ymax := 3, xmax := 3 }

/-- A window straddling the left/top boundary of `extA`. -/
def winStraddle : Box := { ymin := -2, xmin := -2, ymax := 3, xmax := 3 }

def optsA : RasterizerOptions := { line_buffer := 1, background_class_id := 0 }

def optsB : RasterizerOptions := { line_buffer := 1, background_class_id := 7 }

def treeLine : STRtree := ⟨[⟨lineV, 1⟩]⟩

def treeEmpty : STRtree := ⟨[]⟩

/-- The same labeled square, once with and once without z coordinates. -/
def sqZ : LGeom := ⟨Geom.polygonBox { ymin := 1, xmin := 1, ymax := 2, xmax := 2 }, 3⟩

def ptWithZ : LGeom := ⟨Geom.point ⟨1, 1, some 5⟩, 4⟩

def ptNoZ : LGeom := ⟨Geom.point ⟨1, 1, none⟩, 4⟩

def treeZ : STRtree := ⟨[sqZ, ptWithZ]⟩

def treeNoZ : STRtree := ⟨[sqZ, ptNoZ]⟩

/-- A freshly constructed (deactivated) source over `lineV`. -/
def srcNew : RasterizedSource := RasterizedSource.init [⟨lineV, 1⟩] optsA extA ()

/-- The same source after `_activate`. -/
def srcReady : RasterizedSource := srcNew.activate_impl

/-! ## Theorems -/

/- Lean core marks rational arithmetic irreducible; restore reducibility in
this file so that closed computations can be settled by `decide`. -/
attribute [local semireducible] Rat.add Rat.mul Rat.sub Rat.inv

lemma castTo_zero (dt : NpDtype) : castTo dt 0 = 0 := by cases dt <;> rfl

lemma castTo_float64 (v : ℤ) : castTo NpDtype.float64 v = v := rfl

lemma burnedRaster_h (t : STRtree) (o : RasterizerOptions) (w : Box) :
    (burnedRaster t o w).h = (out_shape w).1 := by
  unfold burnedRaster; dsimp only; split <;> rfl

lemma burnedRaster_w (t : STRtree) (o : RasterizerOptions) (w : Box) :
    (burnedRaster t o w).w = (out_shape w).2 := by
  unfold burnedRaster; dsimp only; split <;> rfl

lemma geojson_to_raster_h (t : STRtree) (o : RasterizerOptions) (w e : Box)
    (c : CRSTransformer) : (geojson_to_raster t o w e c).h = (out_shape w).1 := by
  unfold geojson_to_raster; dsimp only; split
  · exact burnedRaster_h t o w
  · rfl

lemma geojson_to_raster_w (t : STRtree) (o : RasterizerOptions) (w e : Box)
    (c : CRSTransformer) : (geojson_to_raster t o w e c).w = (out_shape w).2 := by
  unfold geojson_to_raster; dsimp only; split
  · exact burnedRaster_w t o w
  · rfl

/-- C1: the claim reads "the grid returned by the window rasterizer has
element type unsigned 8-bit in every branch, including the extent-masking
branch".  The code contradicts this (and its own `get_dtype`, which
declares `np.uint8`): in the extent-masking branch the result is built on
`np.zeros(out_shape)` with numpy's default dtype float64, so every window
that meets the extent yields a float64 grid; only the fully-outside branch
returns uint8. -/
theorem c1_masking_branch_returns_float64 :
    (geojson_to_raster treeEmpty optsA winA extA ()).dtype = NpDtype.float64
    ∧ RasterizedSource.get_dtype (RasterizedSource.init [] optsA extA ())
        = NpDtype.uint8
    ∧ (geojson_to_raster treeEmpty optsA winFar extA ()).dtype = NpDtype.uint8 :=
  ⟨by decide, rfl, by decide⟩

/-- C3: whenever `window ∩ extent` is empty, the returned grid is entirely
zero, regardless of the indexed geometries and of `background_class_id`. -/
theorem c3_outside_extent_grid_all_zero (str_tree : STRtree)
    (rasterizer_options : RasterizerOptions) (window extent : Box)
    (crs : CRSTransformer)
    (h : ((window.to_shapely).intersection (extent.to_shapely)).is_empty = true) :
    ∀ i j, i < (geojson_to_raster str_tree rasterizer_options window extent crs).h →
      j < (geojson_to_raster str_tree rasterizer_options window extent crs).w →
      (geojson_to_raster str_tree rasterizer_options window extent crs).data i j
        = 0 := by
  intro i j _ _
  unfold geojson_to_raster
  dsimp only
  rw [if_pos h]
  exact castTo_zero _

theorem c3_witness :
    ((winFar.to_shapely).intersection (extA.to_shapely)).is_empty = true
    ∧ (geojson_to_raster treeLine optsB winFar extA ()).data 1 2 = 0 :=
  ⟨by decide, c3_outside_extent_grid_all_zero treeLine optsB winFar extA ()
    (by decide) 1 2 (by decide) (by decide)⟩

/-- C7: `_get_chip` is pure: it leaves the source's state (index, options,
extent, activation flag, everything) unchanged, two successive calls with
the same window return identical results, and the result does not even
depend on the one field it never reads (`vector_source`). -/
theorem c7_get_chip_idempotent_and_pure (s : RasterizedSource) (window : Box)
    (vs : List LGeom) :
    (s.get_chip_impl window).2 = s
    ∧ (((s.get_chip_impl window).2).get_chip_impl window).1
        = (s.get_chip_impl window).1
    ∧ (({ s with vector_source := vs }).get_chip_impl window).1
        = (s.get_chip_impl window).1 := by
  have h2 : (s.get_chip_impl window).2 = s := by
    unfold RasterizedSource.get_chip_impl
    split
    · rfl
    · cases s.str_tree <;> rfl
  refine ⟨h2, by rw [h2], ?_⟩
  unfold RasterizedSource.get_chip_impl
  cases hA : s.activated
  · simp [hA]
  · simp only [hA]
    cases hT : s.str_tree <;> simp [hT, RasterizedSource.get_extent]

/-- C4: `_get_chip` raises `ActivationError` exactly when the source is
deactivated; when activated (with its index built) it rasterizes the window
and returns the chip; and the call leaves the source's state unchanged, so
the caller can activate and retry. -/
theorem c4_activation_error_iff_deactivated (s : RasterizedSource) (window : Box) :
    ((s.get_chip_impl window).1 = Except.error (PyError.activationError
        "GeoJSONSource must be activated before use") ↔ s.activated = false)
    ∧ (s.get_chip_impl window).2 = s
    ∧ (∀ t, s.activated = true → s.str_tree = some t →
        (s.get_chip_impl window).1 = Except.ok (expand_dims (geojson_to_raster t
          s.rasterizer_options window s.get_extent s.crs_transformer) 2)) := by
  unfold RasterizedSource.get_chip_impl
  cases hA : s.activated
  · simp
  · cases hT : s.str_tree <;> simp [hT]

theorem c4_witness :
    (srcReady.get_chip_impl winA).1 = Except.ok (expand_dims
      (geojson_to_raster treeLine srcReady.rasterizer_options winA
        srcReady.get_extent srcReady.crs_transformer) 2)
    ∧ (srcNew.get_chip_impl winA).1 = Except.error (PyError.activationError
        "GeoJSONSource must be activated before use")
    ∧ (srcNew.get_chip_impl winA).2 = srcNew :=
  ⟨(c4_activation_error_iff_deactivated srcReady winA).2.2 treeLine rfl rfl,
   (c4_activation_error_iff_deactivated srcNew winA).1.mpr rfl,
   (c4_activation_error_iff_deactivated srcNew winA).2.1⟩

/-- C8: on an activated source the chip of a window has shape
`(window.height, window.width, 1)`: the 2-D grid produced by
`geojson_to_raster` has shape `(height, width)` and `_get_chip` appends a
trailing singleton channel axis via `np.expand_dims(..., 2)`. -/
theorem c8_chip_shape (s : RasterizedSource) (t : STRtree) (window : Box)
    (hh ww : Nat) (hact : s.activated = true) (htree : s.str_tree = some t)
    (hH : window.get_height = (hh : ℚ)) (hW : window.get_width = (ww : ℚ)) :
    (s.get_chip_impl window).1 = Except.ok (expand_dims (geojson_to_raster t
      s.rasterizer_options window s.get_extent s.crs_transformer) 2)
    ∧ (expand_dims (geojson_to_raster t s.rasterizer_options window s.get_extent
        s.crs_transformer) 2).h = hh
    ∧ (expand_dims (geojson_to_raster t s.rasterizer_options window s.get_extent
        s.crs_transformer) 2).w = ww
    ∧ (expand_dims (geojson_to_raster t s.rasterizer_options window s.get_extent
        s.crs_transformer) 2).c = 1
    ∧ (geojson_to_raster t s.rasterizer_options window s.get_extent
        s.crs_transformer).h = hh
    ∧ (geojson_to_raster t s.rasterizer_options window s.get_extent
        s.crs_transformer).w = ww := by
  have h1 : (geojson_to_raster t s.rasterizer_options window s.get_extent
      s.crs_transformer).h = hh := by
    rw [geojson_to_raster_h]
    unfold out_shape
    rw [hH, Int.floor_natCast, Int.toNat_natCast]
  have h2 : (geojson_to_raster t s.rasterizer_options window s.get_extent
      s.crs_transformer).w = ww := by
    rw [geojson_to_raster_w]
    unfold out_shape
    rw [hW, Int.floor_natCast, Int.toNat_natCast]
  have h0 : (s.get_chip_impl window).1 = Except.ok (expand_dims
      (geojson_to_raster t s.rasterizer_options window s.get_extent
        s.crs_transformer) 2) := by
    unfold RasterizedSource.get_chip_impl
    simp [hact, htree]
  exact ⟨h0, h1, h2, rfl, h1, h2⟩

theorem c8_witness :
    (srcReady.get_chip_impl winA).1 = Except.ok (expand_dims
      (geojson_to_raster treeLine srcReady.rasterizer_options winA
        srcReady.get_extent srcReady.crs_transformer) 2)
    ∧ (expand_dims (geojson_to_raster treeLine srcReady.rasterizer_options winA
        srcReady.get_extent srcReady.crs_transformer) 2).h = 10
    ∧ (expand_dims (geojson_to_raster treeLine srcReady.rasterizer_options winA
        srcReady.get_extent srcReady.crs_transformer) 2).w = 10
    ∧ (expand_dims (geojson_to_raster treeLine srcReady.rasterizer_options winA
        srcReady.get_extent srcReady.crs_transformer) 2).c = 1
    ∧ (geojson_to_raster treeLine srcReady.rasterizer_options winA
        srcReady.get_extent srcReady.crs_transformer).h = 10
    ∧ (geojson_to_raster treeLine srcReady.rasterizer_options winA
        srcReady.get_extent srcReady.crs_transformer).w = 10 :=
  c8_chip_shape srcReady treeLine winA 10 10 rfl rfl (by decide) (by decide)

/-- C2 counterexample: the claim states that EVERY clipped result that is a
line — "including multi-part lines produced by clipping" — is replaced by
its buffered polygon.  Clipping the V-shaped `lineV` to `winA` produces a
two-part MultiLineString (a non-empty line, not a polygon or point), yet the
buffering step leaves the shape list unchanged: the source's exact type test
`type(s) is shapely.geometry.LineString` is false for a MultiLineString, so
the multi-part line is NOT buffered. -/
theorem c2_counterexample_multiline_not_buffered :
    clipShapes (queryShapes treeLine winA) winA =
      [(Geom.multiLineString [[⟨2,2,none⟩,⟨10,2,none⟩],[⟨10,8,none⟩,⟨2,8,none⟩]], 1)]
    ∧ (Geom.multiLineString
        [[⟨2,2,none⟩,⟨10,2,none⟩],[⟨10,8,none⟩,⟨2,8,none⟩]]).is_empty = false
    ∧ (Geom.multiLineString
        [[⟨2,2,none⟩,⟨10,2,none⟩],[⟨10,8,none⟩,⟨2,8,none⟩]]).isLineKind = true
    ∧ bufferShapes (clipShapes (queryShapes treeLine winA) winA)
        optsA.line_buffer = clipShapes (queryShapes treeLine winA) winA := by
  refine ⟨by decide, by decide, by decide, by decide⟩

/-- C2 as amended: a clipped candidate is replaced by the polygon obtained by
buffering it with `options.line_buffer` exactly when it is a SINGLE-PART
LineString (multi-part lines pass through unbuffered), and buffering is
applied to the already-clipped geometry — after clipping and before
reframing, never before clipping. -/
theorem c2_amended_buffer_only_single_part_lines (t : STRtree) (line_buffer : ℚ)
    (window : Box) (i : Nat) :
    (bufferShapes (clipShapes (queryShapes t window) window) line_buffer)[i]? =
      ((clipShapes (queryShapes t window) window)[i]?).map
        (fun sc => if sc.1.isLineString then (sc.1.buffer line_buffer, sc.2) else sc)
    ∧ finalShapes t line_buffer window =
        reframeShapes (bufferShapes (clipShapes (queryShapes t window) window)
          line_buffer) window := by
  refine ⟨?_, rfl⟩
  unfold bufferShapes
  rw [List.getElem?_map]

/-! State-machine invariant for C9. -/

/-- The invariant maintained by every call: the activated flag is set exactly
when a built index is held, and when it is held it is the STRtree built over
the supplied labeled shapes. -/
def SourceInv (vs : List LGeom) (s : RasterizedSource) : Prop :=
  s.vector_source = vs
  ∧ (s.activated = true ↔ s.str_tree.isSome = true)
  ∧ (s.activated = true → s.str_tree = some (STRtree.mk vs))

lemma sourceInv_init (vs : List LGeom) (opts : RasterizerOptions) (extent : Box)
    (crs : CRSTransformer) : SourceInv vs (RasterizedSource.init vs opts extent crs) := by
  refine ⟨rfl, by simp [RasterizedSource.init], by simp [RasterizedSource.init]⟩

lemma sourceInv_step (vs : List LGeom) (s : RasterizedSource) (op : SourceOp)
    (h : SourceInv vs s) : SourceInv vs (SourceOp.step s op) := by
  obtain ⟨hvs, hiff, htree⟩ := h
  cases op with
  | activate =>
    refine ⟨hvs, by simp [SourceOp.step, RasterizedSource.activate_impl], ?_⟩
    intro _
    simp [SourceOp.step, RasterizedSource.activate_impl, hvs]
  | deactivate =>
    refine ⟨hvs, by simp [SourceOp.step, RasterizedSource.deactivate_impl], ?_⟩
    intro hfalse
    simp [SourceOp.step, RasterizedSource.deactivate_impl] at hfalse
  | getChip w =>
    have h2 : (s.get_chip_impl w).2 = s := by
      unfold RasterizedSource.get_chip_impl
      split
      · rfl
      · cases s.str_tree <;> rfl
    show SourceInv vs (s.get_chip_impl w).2
    rw [h2]
    exact ⟨hvs, hiff, htree⟩

lemma sourceInv_foldl (vs : List LGeom) (ops : List SourceOp)
    (s : RasterizedSource) (h : SourceInv vs s) :
    SourceInv vs (ops.foldl SourceOp.step s) := by
  induction ops generalizing s with
  | nil => exact h
  | cons op rest ih => exact ih _ (sourceInv_step vs s op h)

/-- C9: in every state reachable by any sequence of activate / deactivate /
get_chip calls from a freshly constructed source, the activated flag is true
exactly when a built spatial index is held; when activated the index is the
STRtree over the supplied labeled geometries; and `_get_chip` never
dereferences a missing index (the AttributeError outcome is unreachable). -/
theorem c9_activation_invariant (vs : List LGeom) (opts : RasterizerOptions)
    (extent : Box) (crs : CRSTransformer) (s : RasterizedSource)
    (h : ReachableFrom (RasterizedSource.init vs opts extent crs) s) :
    (s.activated = true ↔ s.str_tree.isSome = true)
    ∧ (s.activated = true → s.str_tree = some (STRtree.mk s.vector_source))
    ∧ (∀ window, (s.get_chip_impl window).1 ≠ Except.error PyError.attributeError) := by
  obtain ⟨ops, rfl⟩ := h
  have hinv := sourceInv_foldl vs ops _ (sourceInv_init vs opts extent crs)
  obtain ⟨hvs, hiff, htree⟩ := hinv
  refine ⟨hiff, by rw [hvs]; exact htree, ?_⟩
  intro window
  set s := ops.foldl SourceOp.step (RasterizedSource.init vs opts extent crs)
  unfold RasterizedSource.get_chip_impl
  cases hA : s.activated
  · simp
  · have := htree hA
    simp [this]

theorem c9_witness :
    ((((RasterizedSource.init [⟨lineV, 1⟩] optsA extA ()).activate_impl).activated = true
        ↔ ((RasterizedSource.init [⟨lineV, 1⟩] optsA extA
            ()).activate_impl).str_tree.isSome = true)
      ∧ ((RasterizedSource.init [⟨lineV, 1⟩] optsA extA ()).activate_impl).str_tree
          = some (STRtree.mk [⟨lineV, 1⟩]))
    ∧ (((RasterizedSource.init [⟨lineV, 1⟩] optsA extA
          ()).activate_impl).get_chip_impl winA).1 ≠ Except.error PyError.attributeError := by
  have h := c9_activation_invariant [⟨lineV, 1⟩] optsA extA ()
    ((RasterizedSource.init [⟨lineV, 1⟩] optsA extA ()).activate_impl)
    ⟨[SourceOp.activate], rfl⟩
  exact ⟨⟨h.1, h.2.1 rfl⟩, h.2.2 winA⟩

/-! z-invariance lemmas for C10. -/

lemma dropZ_xyToPt (xy : ℚ × ℚ) : (xyToPt xy).dropZ = xyToPt xy := rfl

lemma ptsXY_dropZ (pts : List Pt) : ptsXY (pts.map Pt.dropZ) = ptsXY pts := by
  induction pts with
  | nil => rfl
  | cons p ps ih => simp [ptsXY, Pt.dropZ]

lemma bounds_dropZ (g : Geom) : g.dropZ.bounds = g.bounds := by
  induction g with
  | empty => rfl
  | point p => rfl
  | lineString pts => simp [Geom.dropZ, Geom.bounds, ptsXY_dropZ]
  | multiLineString parts =>
    simp only [Geom.dropZ, Geom.bounds, List.map_map]
    congr 1
    apply List.map_congr_left
    intro c _
    simp [ptsXY_dropZ]
  | polygonBox b => rfl
  | buffered g d ih => simp [Geom.dropZ, Geom.bounds, ih]

lemma is_empty_dropZ (g : Geom) : g.dropZ.is_empty = g.is_empty := by
  cases g with
  | multiLineString parts =>
    simp only [Geom.dropZ, Geom.is_empty, List.all_map]
    congr 1
    funext c
    simp [Function.comp]
  | lineString pts => simp [Geom.dropZ, Geom.is_empty]
  | _ => rfl

lemma isLineString_dropZ (g : Geom) : g.dropZ.isLineString = g.isLineString := by
  cases g <;> rfl

lemma map_xyToPt_dropZ (c : List (ℚ × ℚ)) :
    (c.map xyToPt).map Pt.dropZ = c.map xyToPt := by
  rw [List.map_map]; rfl

lemma chainsToGeom_dropZ (cs : List (List (ℚ × ℚ))) :
    (chainsToGeom cs).dropZ = chainsToGeom cs := by
  match cs with
  | [] => rfl
  | [c] =>
    show Geom.lineString ((c.map xyToPt).map Pt.dropZ) = Geom.lineString (c.map xyToPt)
    rw [map_xyToPt_dropZ]
  | c1 :: c2 :: rest =>
    show Geom.multiLineString _ = Geom.multiLineString _
    simp only [List.map_map]
    congr 1
    apply List.map_congr_left
    intro c _
    exact map_xyToPt_dropZ c

lemma clipToBox_dropZ (g : Geom) (b : Box) :
    g.dropZ.clipToBox b = (g.clipToBox b).dropZ := by
  induction g with
  | empty => rfl
  | point p =>
    by_cases h : b.xmin ≤ p.x ∧ p.x ≤ b.xmax ∧ b.ymin ≤ p.y ∧ p.y ≤ b.ymax
    · simp [Geom.dropZ, Geom.clipToBox, Pt.dropZ, h]
    · simp [Geom.dropZ, Geom.clipToBox, Pt.dropZ, h]
  | lineString pts =>
    show Geom.clipToBox (Geom.lineString (pts.map Pt.dropZ)) b = _
    simp only [Geom.clipToBox, ptsXY_dropZ, chainsToGeom_dropZ]
  | multiLineString parts =>
    show Geom.clipToBox (Geom.multiLineString (parts.map (fun c => c.map Pt.dropZ))) b = _
    simp only [Geom.clipToBox, List.map_map, chainsToGeom_dropZ]
    congr 2
    apply List.map_congr_left
    intro c _
    simp [ptsXY_dropZ]
  | polygonBox r =>
    show Geom.clipToBox (Geom.polygonBox r) b = _
    simp only [Geom.clipToBox]
    split_ifs <;> simp [Geom.dropZ, Pt.dropZ]
  | buffered g d ih => rfl

lemma transform_twf_dropZ (w : Box) (g : Geom) :
    Geom.transform (to_window_frame w) g.dropZ
      = Geom.transform (to_window_frame w) g := by
  induction g with
  | empty => rfl
  | point p => rfl
  | lineString pts =>
    show Geom.lineString _ = Geom.lineString _
    rw [List.map_map]; rfl
  | multiLineString parts =>
    show Geom.multiLineString _ = Geom.multiLineString _
    rw [List.map_map]
    congr 1
    apply List.map_congr_left
    intro c _
    show (c.map Pt.dropZ).map _ = _
    rw [List.map_map]; rfl
  | polygonBox b => rfl
  | buffered g d ih =>
    show Geom.buffered _ _ = Geom.buffered _ _
    rw [ih]

lemma filter_map_dropZ (w : Box) (l : List LGeom) :
    ((l.filter (fun s => match Geom.bounds s.geom with
        | none => false
        | some sb => boxesIntersect w sb)).map
      (fun s => (s.geom, s.class_id))).map pairDropZ
    = ((l.map LGeom.dropZ).filter (fun s => match Geom.bounds s.geom with
        | none => false
        | some sb => boxesIntersect w sb)).map
      (fun s => (s.geom, s.class_id)) := by
  induction l with
  | nil => rfl
  | cons a rest ih =>
    have hb : (LGeom.dropZ a).geom.bounds = a.geom.bounds := by
      show a.geom.dropZ.bounds = _
      exact bounds_dropZ a.geom
    simp only [List.map_cons, List.filter_cons, hb]
    by_cases hc : (match Geom.bounds a.geom with
        | none => false
        | some sb => boxesIntersect w sb) = true
    · simp only [if_pos hc, List.map_cons]
      rw [ih]
      rfl
    · simp only [if_neg hc]
      exact ih

lemma queryShapes_dropZ (t : STRtree) (w : Box) :
    (queryShapes t w).map pairDropZ
      = queryShapes ⟨t.geoms.map LGeom.dropZ⟩ w := by
  obtain ⟨l⟩ := t
  unfold queryShapes STRtree.query
  simp only [Box.to_shapely, Geom.bounds]
  exact filter_map_dropZ w l

lemma clipShapes_dropZ (l : List (Geom × ℤ)) (w : Box) :
    (clipShapes l w).map pairDropZ = clipShapes (l.map pairDropZ) w := by
  induction l with
  | nil => rfl
  | cons a rest ih =>
    unfold clipShapes at ih ⊢
    have hclip : (pairDropZ a).1.intersection w.to_shapely
        = ((a.1.intersection w.to_shapely).dropZ) := by
      show a.1.dropZ.clipToBox w = _
      exact clipToBox_dropZ a.1 w
    have hemp : ((pairDropZ a).1.intersection w.to_shapely).is_empty
        = (a.1.intersection w.to_shapely).is_empty := by
      rw [hclip]
      exact is_empty_dropZ _
    simp only [List.map_cons, List.filter_cons, hemp]
    cases hc : (a.1.intersection w.to_shapely).is_empty
    · simp only [hc, Bool.not_false, if_true, List.map_cons]
      rw [ih, hclip]
      rfl
    · simp only [hc, Bool.not_true, if_false]
      exact ih

lemma bufferShapes_dropZ (l : List (Geom × ℤ)) (lb : ℚ) :
    (bufferShapes l lb).map pairDropZ = bufferShapes (l.map pairDropZ) lb := by
  induction l with
  | nil => rfl
  | cons a rest ih =>
    unfold bufferShapes at ih ⊢
    simp only [List.map_cons]
    have hl : (pairDropZ a).1.isLineString = a.1.isLineString := isLineString_dropZ a.1
    cases hc : a.1.isLineString
    · simp only [hl, hc, if_neg Bool.false_ne_true]
      rw [ih]
    · simp only [hl, hc, if_true]
      rw [ih]
      rfl

lemma reframeShapes_dropZ (l : List (Geom × ℤ)) (w : Box) :
    reframeShapes (l.map pairDropZ) w = reframeShapes l w := by
  induction l with
  | nil => rfl
  | cons a rest ih =>
    unfold reframeShapes at ih ⊢
    simp only [List.map_cons]
    rw [ih]
    show (Geom.transform (to_window_frame w) a.1.dropZ, a.2) :: _ = _
    rw [transform_twf_dropZ]

lemma finalShapes_congr_dropZ (t1 t2 : STRtree) (lb : ℚ) (w : Box)
    (h : t1.geoms.map LGeom.dropZ = t2.geoms.map LGeom.dropZ) :
    finalShapes t1 lb w = finalShapes t2 lb w := by
  unfold finalShapes
  rw [← reframeShapes_dropZ (bufferShapes (clipShapes (queryShapes t1 w) w) lb) w,
      ← reframeShapes_dropZ (bufferShapes (clipShapes (queryShapes t2 w) w) lb) w,
      bufferShapes_dropZ, bufferShapes_dropZ, clipShapes_dropZ, clipShapes_dropZ,
      queryShapes_dropZ t1 w, queryShapes_dropZ t2 w, h]

lemma geojson_congr_finalShapes (t1 t2 : STRtree) (o : RasterizerOptions)
    (w e : Box) (c : CRSTransformer)
    (h : finalShapes t1 o.line_buffer w = finalShapes t2 o.line_buffer w) :
    geojson_to_raster t1 o w e c = geojson_to_raster t2 o w e c := by
  unfold geojson_to_raster burnedRaster
  rw [h]

/-- C10: the reframing function `to_window_frame` accepts an optional third
(z) coordinate and returns only `(x - window.xmin, y - window.ymin)`, so z
coordinates are discarded; consequently the output grid depends only on the
2-D footprint of the indexed geometries — two geometry sets that differ only
in z coordinates yield identical grids for every window. -/
theorem c10_z_discarded_grids_equal (t1 t2 : STRtree) (opts : RasterizerOptions)
    (window extent : Box) (crs : CRSTransformer) (x y : ℚ) (z : Option ℚ)
    (h : t1.geoms.map LGeom.dropZ = t2.geoms.map LGeom.dropZ) :
    to_window_frame window x y z = (x - window.xmin, y - window.ymin)
    ∧ geojson_to_raster t1 opts window extent crs
        = geojson_to_raster t2 opts window extent crs :=
  ⟨rfl, geojson_congr_finalShapes t1 t2 opts window extent crs
    (finalShapes_congr_dropZ t1 t2 opts.line_buffer window h)⟩

theorem c10_witness :
    to_window_frame winA 3 4 (some 9) = (3 - winA.xmin, 4 - winA.ymin)
    ∧ geojson_to_raster treeZ optsA winA extA ()
        = geojson_to_raster treeNoZ optsA winA extA () :=
  c10_z_discarded_grids_equal treeZ treeNoZ optsA winA extA () 3 4 (some 9)
    (by decide)

/-! Extent-masking lemmas for C5 and C6. -/

lemma valid_nonempty (w e : Box)
    (hvx : max w.xmin e.xmin ≤ min w.xmax e.xmax)
    (hvy : max w.ymin e.ymin ≤ min w.ymax e.ymax) :
    ((w.to_shapely).intersection (e.to_shapely)).is_empty = false := by
  unfold Box.to_shapely Geom.intersection Geom.clipToBox
  dsimp only
  rw [if_pos ⟨hvx, hvy⟩]
  split_ifs <;> rfl

lemma mask_box (w e : Box)
    (hvx : max w.xmin e.xmin ≤ min w.xmax e.xmax)
    (hvy : max w.ymin e.ymin ≤ min w.ymax e.ymax) :
    Box.from_shapely (Geom.transform (to_window_frame w)
      ((w.to_shapely).intersection (e.to_shapely)))
    = { ymin := max w.ymin e.ymin - w.ymin, xmin := max w.xmin e.xmin - w.xmin,
        ymax := min w.ymax e.ymax - w.ymin, xmax := min w.xmax e.xmax - w.xmin } := by
  have hx : max w.xmin e.xmin - w.xmin ≤ min w.xmax e.xmax - w.xmin :=
    sub_le_sub_right hvx w.xmin
  have hy : max w.ymin e.ymin - w.ymin ≤ min w.ymax e.ymax - w.ymin :=
    sub_le_sub_right hvy w.ymin
  unfold Box.to_shapely Geom.intersection Geom.clipToBox
  dsimp only
  rw [if_pos ⟨hvx, hvy⟩]
  by_cases h1 : max w.xmin e.xmin = min w.xmax e.xmax
      ∧ max w.ymin e.ymin = min w.ymax e.ymax
  · rw [if_pos h1]
    simp [Geom.transform, Box.from_shapely, Geom.bounds, xyToPt, to_window_frame,
      h1.1, h1.2]
  · rw [if_neg h1]
    by_cases h2 : max w.xmin e.xmin = min w.xmax e.xmax
    · rw [if_pos h2]
      simp only [Geom.transform, List.map_cons, List.map_nil, Box.from_shapely,
        Geom.bounds, ptsXY, ptsBounds, List.foldl_cons, List.foldl_nil,
        to_window_frame, xyToPt, Option.getD_some]
      rw [min_self, max_self, min_eq_left hy, max_eq_right hy, h2]
    · rw [if_neg h2]
      by_cases h3 : max w.ymin e.ymin = min w.ymax e.ymax
      · rw [if_pos h3]
        simp only [Geom.transform, List.map_cons, List.map_nil, Box.from_shapely,
          Geom.bounds, ptsXY, ptsBounds, List.foldl_cons, List.foldl_nil,
          to_window_frame, xyToPt, Option.getD_some]
        rw [min_self, max_self, min_eq_left hx, max_eq_right hx, h3]
      · rw [if_neg h3]
        simp [Geom.transform, Box.from_shapely, Geom.bounds, to_window_frame]

lemma resolveSlice_of_nonneg (a : ℤ) (n : Nat) (h0 : 0 ≤ a) (h1 : a ≤ (n : ℤ)) :
    resolveSlice a n = a.toNat := by
  unfold resolveSlice
  dsimp only
  rw [if_neg (not_lt.mpr h0)]
  exact min_eq_left (Int.toNat_le.mpr h1)

lemma masked_data (t : STRtree) (o : RasterizerOptions) (w e : Box)
    (c : CRSTransformer)
    (hwx : w.xmin ≤ w.xmax) (hwy : w.ymin ≤ w.ymax)
    (hvx : max w.xmin e.xmin ≤ min w.xmax e.xmax)
    (hvy : max w.ymin e.ymin ≤ min w.ymax e.ymax) (i j : Nat) :
    (geojson_to_raster t o w e c).data i j =
      if ⌊max w.ymin e.ymin - w.ymin⌋ ≤ (i:ℤ) ∧ (i:ℤ) < ⌊min w.ymax e.ymax - w.ymin⌋
          ∧ ⌊max w.xmin e.xmin - w.xmin⌋ ≤ (j:ℤ) ∧ (j:ℤ) < ⌊min w.xmax e.xmax - w.xmin⌋
      then (burnedRaster t o w).data i j else 0 := by
  have hx : max w.xmin e.xmin - w.xmin ≤ min w.xmax e.xmax - w.xmin :=
    sub_le_sub_right hvx w.xmin
  have hy : max w.ymin e.ymin - w.ymin ≤ min w.ymax e.ymax - w.ymin :=
    sub_le_sub_right hvy w.ymin
  have hH0 : (0:ℤ) ≤ ⌊w.ymax - w.ymin⌋ := Int.floor_nonneg.mpr (sub_nonneg.mpr hwy)
  have hW0 : (0:ℤ) ≤ ⌊w.xmax - w.xmin⌋ := Int.floor_nonneg.mpr (sub_nonneg.mpr hwx)
  have l1y : (0:ℤ) ≤ ⌊max w.ymin e.ymin - w.ymin⌋ :=
    Int.floor_nonneg.mpr (sub_nonneg.mpr (le_max_left _ _))
  have l2y : ⌊max w.ymin e.ymin - w.ymin⌋ ≤ ⌊min w.ymax e.ymax - w.ymin⌋ :=
    Int.floor_le_floor hy
  have l3y : ⌊min w.ymax e.ymax - w.ymin⌋ ≤ ⌊w.ymax - w.ymin⌋ :=
    Int.floor_le_floor (sub_le_sub_right (min_le_left _ _) _)
  have l1x : (0:ℤ) ≤ ⌊max w.xmin e.xmin - w.xmin⌋ :=
    Int.floor_nonneg.mpr (sub_nonneg.mpr (le_max_left _ _))
  have l2x : ⌊max w.xmin e.xmin - w.xmin⌋ ≤ ⌊min w.xmax e.xmax - w.xmin⌋ :=
    Int.floor_le_floor hx
  have l3x : ⌊min w.xmax e.xmax - w.xmin⌋ ≤ ⌊w.xmax - w.xmin⌋ :=
    Int.floor_le_floor (sub_le_sub_right (min_le_left _ _) _)
  have hA := valid_nonempty w e hvx hvy
  unfold geojson_to_raster
  dsimp only
  rw [hA, if_neg Bool.false_ne_true, mask_box w e hvx hvy]
  unfold Box.to_int NpArray2.sliceAssignFrom npZeros out_shape Box.get_height
    Box.get_width
  dsimp only
  rw [resolveSlice_of_nonneg _ _ l1y
        (by rw [Int.toNat_of_nonneg hH0]; exact le_trans l2y l3y),
      resolveSlice_of_nonneg _ _ (le_trans l1y l2y)
        (by rw [Int.toNat_of_nonneg hH0]; exact l3y),
      resolveSlice_of_nonneg _ _ l1x
        (by rw [Int.toNat_of_nonneg hW0]; exact le_trans l2x l3x),
      resolveSlice_of_nonneg _ _ (le_trans l1x l2x)
        (by rw [Int.toNat_of_nonneg hW0]; exact l3x)]
  simp only [castTo_float64]
  exact if_congr (and_congr Int.toNat_le (and_congr Int.lt_toNat
    (and_congr Int.toNat_le Int.lt_toNat))) rfl rfl

/-- C5: for a window whose intersection `valid` with the extent is non-empty
(expressed by the closed-rectangle overlap conditions, which are equivalent
to `valid.is_empty = false` — first conjunct), every pixel strictly outside
the rectangle obtained by reframing `valid` into the window's local frame
and floor-truncating it (`Box.from_shapely (transform ...) |>.to_int`) is 0,
and every pixel inside it equals the corresponding pixel of the burned-in
grid. -/
theorem c5_partial_extent_masking (t : STRtree) (o : RasterizerOptions)
    (window extent : Box) (crs : CRSTransformer)
    (hwx : window.xmin ≤ window.xmax) (hwy : window.ymin ≤ window.ymax)
    (hvx : max window.xmin extent.xmin ≤ min window.xmax extent.xmax)
    (hvy : max window.ymin extent.ymin ≤ min window.ymax extent.ymax) :
    ((window.to_shapely).intersection (extent.to_shapely)).is_empty = false
    ∧ ∀ i j, i < (geojson_to_raster t o window extent crs).h →
        j < (geojson_to_raster t o window extent crs).w →
        (geojson_to_raster t o window extent crs).data i j =
          (let vw := (Box.from_shapely (Geom.transform (to_window_frame window)
              ((window.to_shapely).intersection (extent.to_shapely)))).to_int
           if vw.ymin ≤ (i:ℤ) ∧ (i:ℤ) < vw.ymax
              ∧ vw.xmin ≤ (j:ℤ) ∧ (j:ℤ) < vw.xmax
           then (burnedRaster t o window).data i j else 0) := by
  refine ⟨valid_nonempty window extent hvx hvy, ?_⟩
  intro i j _ _
  rw [masked_data t o window extent crs hwx hwy hvx hvy i j]
  simp only [mask_box window extent hvx hvy, Box.to_int]

theorem c5_witness :
    (((winStraddle.to_shapely).intersection (extA.to_shapely)).is_empty = false
      ∧ (geojson_to_raster treeEmpty optsB winStraddle extA ()).data 1 1 =
          (let vw := (Box.from_shapely (Geom.transform (to_window_frame winStraddle)
              ((winStraddle.to_shapely).intersection (extA.to_shapely)))).to_int
           if vw.ymin ≤ (1:ℤ) ∧ (1:ℤ) < vw.ymax
              ∧ vw.xmin ≤ (1:ℤ) ∧ (1:ℤ) < vw.xmax
           then (burnedRaster treeEmpty optsB winStraddle).data 1 1 else 0))
    ∧ (geojson_to_raster treeEmpty optsB winStraddle extA ()).data 1 1 = 0
    ∧ (geojson_to_raster treeEmpty optsB winStraddle extA ()).data 3 3 = 7 :=
  ⟨⟨(c5_partial_extent_masking treeEmpty optsB winStraddle extA ()
        (by decide) (by decide) (by decide) (by decide)).1,
    (c5_partial_extent_masking treeEmpty optsB winStraddle extA ()
        (by decide) (by decide) (by decide) (by decide)).2 1 1
      (by decide) (by decide)⟩,
   by decide, by decide⟩

/-- C6: for a (non-degenerate) window fully inside the extent, if no indexed
geometry's clipped intersection with the window survives (the candidate list
is empty after clipping), burn-in is skipped and every pixel of the returned
grid equals `options.background_class_id`. -/
theorem c6_no_candidates_uniform_background (str_tree : STRtree)
    (rasterizer_options : RasterizerOptions) (window extent : Box)
    (crs : CRSTransformer)
    (hwx : window.xmin < window.xmax) (hwy : window.ymin < window.ymax)
    (hx0 : extent.xmin ≤ window.xmin) (hx1 : window.xmax ≤ extent.xmax)
    (hy0 : extent.ymin ≤ window.ymin) (hy1 : window.ymax ≤ extent.ymax)
    (hbg0 : 0 ≤ rasterizer_options.background_class_id)
    (hbg1 : rasterizer_options.background_class_id < 256)
    (hclip : clipShapes (queryShapes str_tree window) window = []) :
    ∀ i j, i < (geojson_to_raster str_tree rasterizer_options window extent crs).h →
      j < (geojson_to_raster str_tree rasterizer_options window extent crs).w →
      (geojson_to_raster str_tree rasterizer_options window extent crs).data i j
        = rasterizer_options.background_class_id := by
  intro i j hi hj
  rw [geojson_to_raster_h] at hi
  rw [geojson_to_raster_w] at hj
  unfold out_shape Box.get_height Box.get_width at hi hj
  have hmx : max window.xmin extent.xmin = window.xmin := max_eq_left hx0
  have hmy : max window.ymin extent.ymin = window.ymin := max_eq_left hy0
  have hnx : min window.xmax extent.xmax = window.xmax := min_eq_left hx1
  have hny : min window.ymax extent.ymax = window.ymax := min_eq_left hy1
  have hvx : max window.xmin extent.xmin ≤ min window.xmax extent.xmax := by
    rw [hmx, hnx]; exact le_of_lt hwx
  have hvy : max window.ymin extent.ymin ≤ min window.ymax extent.ymax := by
    rw [hmy, hny]; exact le_of_lt hwy
  rw [masked_data str_tree rasterizer_options window extent crs
    (le_of_lt hwx) (le_of_lt hwy) hvx hvy i j]
  rw [hmx, hmy, hnx, hny]
  simp only [sub_self, Int.floor_zero]
  rw [if_pos ⟨Int.natCast_nonneg i, Int.lt_toNat.mp hi, Int.natCast_nonneg j,
    Int.lt_toNat.mp hj⟩]
  have hfs : finalShapes str_tree rasterizer_options.line_buffer window = [] := by
    unfold finalShapes
    rw [hclip]
    rfl
  unfold burnedRaster
  dsimp only
  rw [hfs]
  simp only [List.isEmpty_nil, if_true]
  show castTo NpDtype.uint8 rasterizer_options.background_class_id = _
  simp only [castTo]
  exact Int.emod_eq_of_lt hbg0 hbg1

theorem c6_witness :
    (geojson_to_raster treeEmpty optsB winIn extA ()).data 1 1
      = optsB.background_class_id :=
  c6_no_candidates_uniform_background treeEmpty optsB winIn extA ()
    (by decide) (by decide) (by decide) (by decide) (by decide) (by decide)
    (by decide) (by decide) rfl 1 1 (by decide) (by decide)
